import Mathlib

/-!
Verification of the `functions.py` module of the rixgit repository: a shallow
embedding of its data model (pandas-style tables), its filesystem-touching
encoders, and its preprocessing / evaluation pipeline steps, together with
theorems settling the specified properties.

Modelling conventions:
* A table cell (`Val`) is an integer, a string, or a missing value (`na`,
  pandas NaN/None).  Real-valued cells do not occur in any property below.
* A column carries its pandas dtype explicitly; the dtype universe is the one
  this pipeline uses: `int64`, `float64` (numeric) and `obj` (object dtype,
  holding strings or missing values).
* The filesystem is a store of directories and files (byte lists), together
  with a trace of directory-creation calls, so that "performs no directory
  creation" is expressible.  Writes are modelled as total: environmental
  failures (disk full, permission denied) propagate from the OS layer and are
  outside the module's contract, as the spec's error-taxonomy section states.
* Fallible functions return `Except Err`, with `Err` covering the Python
  exception classes the module can surface.
-/

namespace Rixgit

/-- A table cell: integer, string, or missing (pandas NaN/None). -/
inductive Val where
  | int : Int → Val
  | str : String → Val
  | na : Val
deriving DecidableEq, Repr

def Val.isNa : Val → Bool
  | .na => true
  | _ => false

def Val.isInt : Val → Bool
  | .int _ => true
  | _ => false

def Val.isStr : Val → Bool
  | .str _ => true
  | _ => false

/-- Pandas column dtypes occurring in this pipeline. -/
inductive Dtype where
  | int64
  | float64
  | obj
deriving DecidableEq, Repr

/-- `select_dtypes(include=["number"])` keeps `int64` and `float64` columns. -/
def Dtype.isNumeric : Dtype → Bool
  | .int64 => true
  | .float64 => true
  | .obj => false

/-- A named, dtyped pandas column. -/
structure Column where
  name : String
  dtype : Dtype
  values : List Val
deriving DecidableEq, Repr

/-- A pandas DataFrame: an ordered list of named columns. -/
structure DataFrame where
  cols : List Column
deriving DecidableEq, Repr

def DataFrame.colNames (df : DataFrame) : List String :=
  df.cols.map (fun c => c.name)

/-- Row count of a DataFrame (all columns of a well-formed frame agree). -/
def DataFrame.nRows (df : DataFrame) : Nat :=
  match df.cols with
  | [] => 0
  | c :: _ => c.values.length

/-- Well-formedness: every column has the common row count. -/
def DataFrame.WF (df : DataFrame) : Prop :=
  ∀ c ∈ df.cols, c.values.length = df.nRows

instance (df : DataFrame) : Decidable df.WF := by
  unfold DataFrame.WF; infer_instance

/-- Column lookup by name (`df[name]`, first match). -/
def DataFrame.getCol (df : DataFrame) (name : String) : Option Column :=
  df.cols.find? (fun c => c.name = name)

/-- Python exception classes surfaced by the module. -/
inductive Err where
  | keyError
  | valueError
  | fileNotFoundError
  | sameFileError
deriving DecidableEq, Repr

/-! ## Filesystem model -/

/-- Filesystem state: known directories, files as byte lists (most recent
write first), and the trace of `os.makedirs` invocations. -/
structure FSState where
  dirs : List String
  files : List (String × List Nat)
  mkdirCalls : List String
deriving DecidableEq, Repr

/-- `os.makedirs(d, exist_ok=True)`: records the call and the directory. -/
def FSState.makedirs (fs : FSState) (d : String) : FSState :=
  { fs with dirs := d :: fs.dirs, mkdirCalls := fs.mkdirCalls ++ [d] }

/-- Write a file (overwrite semantics: the new entry shadows older ones). -/
def FSState.writeFile (fs : FSState) (p : String) (content : List Nat) : FSState :=
  { fs with files := (p, content) :: fs.files }

/-- Read a file's bytes, `none` when no file exists at the path. -/
def FSState.readFile (fs : FSState) (p : String) : Option (List Nat) :=
  (fs.files.find? (fun e => e.1 = p)).map (fun e => e.2)

/-- Index just past the last `/` of a character list (`0` when there is none). -/
def lastSlashSucc (cs : List Char) : Nat :=
  cs.length - (cs.reverse.takeWhile (fun ch => ch ≠ '/')).length

/-- `os.path.dirname` (posixpath): take the prefix up to the last `/`; if that
head is nonempty and not made of slashes only, strip its trailing slashes. -/
def dirname (p : String) : String :=
  let cs := p.data
  let head := cs.take (lastSlashSucc cs)
  if head ≠ [] ∧ head.any (fun ch => ch ≠ '/') then
    String.mk ((head.reverse.dropWhile (fun ch => ch = '/')).reverse)
  else
    String.mk head

/-! ## CSV and PNG artifacts -/

/-- Rendering of a cell by `DataFrame.to_csv` (missing values render empty). -/
def Val.render : Val → String
  | .int n => toString n
  | .str s => s
  | .na => ""

/-- Row `i` of a DataFrame, rendered. -/
def DataFrame.renderRow (df : DataFrame) (i : Nat) : List String :=
  df.cols.map (fun c => (c.values.getD i .na).render)

/-- `df.to_csv(path, index=False)` serialization: a header line of column
names followed by one line per row, comma separated, no index column. -/
def DataFrame.toCsv (df : DataFrame) : String :=
  let header := String.intercalate "," df.colNames
  let rows := (List.range df.nRows).map (fun i => String.intercalate "," (df.renderRow i))
  String.intercalate "\n" (header :: rows) ++ "\n"

def csvBytes (df : DataFrame) : List Nat :=
  df.toCsv.data.map (fun ch => ch.toNat)

/-- The 8 PNG signature bytes. -/
def pngSignature : List Nat := [137, 80, 78, 71, 13, 10, 26, 10]

/-- Model of `matplotlib.pyplot.savefig` output: a valid PNG file, i.e. the
PNG signature followed by an encoding of the rendered figure content. -/
def pngFileBytes (desc : String) : List Nat :=
  pngSignature ++ desc.data.map (fun ch => ch.toNat)

def noNumericMsg : String := "No numeric columns available for correlation."

def emptyCorrMsg : String := "Correlation matrix is empty."

def heatmapDesc : String := "Feature Correlation Heatmap"

/-! ## Encoders / I/O (`write_to_csv`, `copy_file`) -/

/-- The `dirpath = os.path.dirname(path); if dirpath: os.makedirs(dirpath,
exist_ok=True)` idiom shared by all file-producing functions. -/
def mkdirParent (path : String) (fs : FSState) : FSState :=
  if dirname path ≠ "" then fs.makedirs (dirname path) else fs

/-- `write_to_csv(df, path)`: creates the parent directory only when
`dirname path` is nonempty, writes the CSV at exactly `path` (no extension
appended), returns `path`. -/
def write_to_csv (df : DataFrame) (path : String) (fs : FSState) :
    String × FSState :=
  (path, (mkdirParent path fs).writeFile path (csvBytes df))

/-- `copy_file(src_path, out_path)`: creates the parent directory of
`out_path` when nonempty, then `shutil.copyfile`.  `copyfile` first checks
`_samefile`, which wraps `os.path.samefile` (a stat of both paths) in a
handler that turns an `OSError` into `False`; so the check is true — and
`SameFileError` raised — only when the two paths refer to the same
*existing* file (paths are plain names here, so same file = equal path
holding a file).  Otherwise `open(src, "rb")` raises `FileNotFoundError`
when the source is missing (also when the two equal paths name no file),
and on an existing source the bytes are copied. -/
def copy_file (src_path out_path : String) (fs : FSState) :
    Except Err (String × FSState) :=
  if src_path = out_path ∧ ((mkdirParent out_path fs).readFile src_path).isSome then
    .error .sameFileError
  else
    match (mkdirParent out_path fs).readFile src_path with
    | none => .error .fileNotFoundError
    | some content =>
      .ok (out_path, (mkdirParent out_path fs).writeFile out_path content)

/-! ## Plot maker (`make_correlation_heatmap_png`) -/

/-- `make_correlation_heatmap_png(encoded_df, out_path)`: creates the parent
directory when nonempty; selects the numeric columns; when that selection is
empty (no numeric columns, or zero rows — pandas `DataFrame.empty`) saves a
placeholder-message PNG; when the correlation matrix has zero rows (its row
count is the numeric column count, so this branch is unreachable after the
first) saves the second placeholder; otherwise saves the annotated heatmap.
Always returns `out_path`. -/
def make_correlation_heatmap_png (encoded_df : DataFrame) (out_path : String)
    (fs : FSState) : String × FSState :=
  if (encoded_df.cols.filter (fun c => c.dtype.isNumeric)).length = 0 ∨
      encoded_df.nRows = 0 then
    (out_path, (mkdirParent out_path fs).writeFile out_path (pngFileBytes noNumericMsg))
  else if (encoded_df.cols.filter (fun c => c.dtype.isNumeric)).length = 0 then
    (out_path, (mkdirParent out_path fs).writeFile out_path (pngFileBytes emptyCorrMsg))
  else
    (out_path, (mkdirParent out_path fs).writeFile out_path (pngFileBytes heatmapDesc))

/-! ## Preprocessing (`encode_categoricals`, `make_processed_data`) -/

/-- The strings among a value list (an object column's non-missing entries;
object columns of this pipeline hold strings or missing values). -/
def strsOf (vs : List Val) : List String :=
  vs.filterMap (fun v => match v with | .str s => some s | _ => none)

/-- The categories `astype("category")` assigns to an object column: the
distinct non-missing values in ascending (sorted) order. -/
def categoriesOf (vs : List Val) : List String :=
  List.insertionSort (· ≤ ·) (strsOf vs).dedup

/-- `cat.codes` for one cell: a non-missing value gets its index in the
sorted category list; a missing value gets the sentinel `-1`. -/
def catCode (cs : List String) (v : Val) : Val :=
  match v with
  | .str s => .int (cs.indexOf s : Nat)
  | _ => .int (-1)

/-- One step of `encode_categoricals`: an object-dtype column is replaced by
its integer category codes; any other column is untouched. -/
def encodeColumn (c : Column) : Column :=
  if c.dtype = .obj then
    ⟨c.name, .int64, c.values.map (catCode (categoriesOf c.values))⟩
  else
    c

/-- `encode_categoricals(raw_df)`: copies the frame and recodes each
object-dtype column via `astype("category").cat.codes`. -/
def encode_categoricals (raw_df : DataFrame) : DataFrame :=
  ⟨raw_df.cols.map encodeColumn⟩

/-- Distinct non-missing values of a column
(`pd.Series(y).dropna().unique()`). -/
def nonNaDistinct (vs : List Val) : List Val :=
  (vs.filter (fun v => !v.isNa)).dedup

/-- The train/test row counts of a processed-data bundle (the feature
matrices' real-valued entries are produced by the scaler and are outside the
cell model; every property below concerns the counts). -/
structure SplitShape where
  n_train : Nat
  n_test : Nat
deriving DecidableEq, Repr

/-- Test-set size of sklearn `train_test_split` with `test_size=0.3`:
`ceil(0.3 * n)`, here in exact arithmetic `⌈3n/10⌉ = (3n+9)/10` (the float
product `0.3 * n` rounds to the same ceiling for all feasible `n`). -/
def sklearnTestCount (n : Nat) : Nat := (3 * n + 9) / 10

/-- `make_processed_data(encoded_df, target_col)`: raises `KeyError` when the
target column is absent; raises `ValueError` when the target has fewer than 2
distinct non-missing values; then `StandardScaler.fit_transform` raises
`ValueError` when there are no feature columns or a feature value is a
string (non-numeric); then the stratified `train_test_split` (seed 42,
`test_size=0.3`) raises `ValueError` when some stratification class has
fewer than 2 members or the train or test size is below the class count;
otherwise returns the bundle, whose shape is `n - ceil(0.3 n)` training rows
and `ceil(0.3 n)` test rows. -/
def xColumns (encoded_df : DataFrame) (target_col : String) : List Column :=
  encoded_df.cols.filter (fun c => c.name ≠ target_col)

/-- The body of `make_processed_data` once the target column has been
looked up: the explicit distinct-value validation, then the library stages
(scaler, stratified split) with their own `ValueError` conditions. -/
def processWithTarget (encoded_df : DataFrame) (target_col : String)
    (ycol : Column) : Except Err SplitShape :=
  if (nonNaDistinct ycol.values).length < 2 then .error .valueError
  else if (xColumns encoded_df target_col).length = 0 then .error .valueError
  else if (xColumns encoded_df target_col).any
      (fun c => c.values.any (fun v => v.isStr)) then .error .valueError
  else if ycol.values.dedup.any
      (fun cl => ycol.values.count cl < 2) then .error .valueError
  else if ycol.values.length - sklearnTestCount ycol.values.length <
        ycol.values.dedup.length ∨
      sklearnTestCount ycol.values.length < ycol.values.dedup.length then
    .error .valueError
  else
    .ok ⟨ycol.values.length - sklearnTestCount ycol.values.length,
         sklearnTestCount ycol.values.length⟩

def make_processed_data (encoded_df : DataFrame) (target_col : String) :
    Except Err SplitShape :=
  match encoded_df.getCol target_col with
  | none => .error .keyError
  | some ycol => processWithTarget encoded_df target_col ycol

/-! ## Model stage (`compute_accuracy`, `make_evaluation_df`) -/

/-- A processed-data bundle as read by the evaluation functions: both only
access the `y_test` entry (test labels); `y_train` is carried along.  The
scaled feature matrices are never read by them and their real-valued entries
are outside the cell model. -/
structure ProcessedData where
  y_train : List Val
  y_test : List Val
deriving DecidableEq, Repr

/-- Number of positions where test label and prediction agree. -/
def countMatches (ys ps : List Val) : Nat :=
  ((ys.zip ps).filter (fun q => q.1 = q.2)).length

/-- `compute_accuracy(processed_data, y_pred)`: sklearn `accuracy_score`
first checks consistent lengths (`ValueError` on mismatch), then returns the
fraction of matching positions.  Faithful for integer class labels, the only
labels this pipeline produces. -/
def compute_accuracy (processed_data : ProcessedData) (y_pred : List Val) :
    Except Err ℚ :=
  if y_pred.length ≠ processed_data.y_test.length then .error .valueError
  else
    .ok ((countMatches processed_data.y_test y_pred : ℚ) /
      (processed_data.y_test.length : ℚ))

/-- Column dtype pandas infers for a constructed column. -/
def inferDtype (vs : List Val) : Dtype :=
  if vs.all (fun v => v.isInt) then .int64
  else if vs.all (fun v => v.isInt || v.isNa) then .float64
  else .obj

/-- `make_evaluation_df(processed_data, y_pred)`: builds
`pd.DataFrame({"truth": y_test, "estimate": y_pred})`; the constructor
raises `ValueError` when the lengths disagree. -/
def make_evaluation_df (processed_data : ProcessedData) (y_pred : List Val) :
    Except Err DataFrame :=
  if y_pred.length ≠ processed_data.y_test.length then .error .valueError
  else
    .ok ⟨[⟨"truth", inferDtype processed_data.y_test, processed_data.y_test⟩,
          ⟨"estimate", inferDtype y_pred, y_pred⟩]⟩

/-! ## Concrete inputs used by witnesses and counterexamples -/

/-- The empty filesystem. -/
def fs0 : FSState := ⟨[], [], []⟩

/-- A filesystem holding one two-byte file `a.txt`. -/
def fsA : FSState := ⟨[], [("a.txt", [104, 105])], []⟩

/-- A 40-row encoded table with one feature and a balanced binary target. -/
def df40 : DataFrame :=
  ⟨[⟨"x", .int64, (List.range 40).map (fun i => .int i)⟩,
    ⟨"target", .int64, (List.range 40).map (fun i => .int (i % 2))⟩]⟩

/-- An 8-row encoded table with one feature and a balanced binary target. -/
def df8 : DataFrame :=
  ⟨[⟨"x", .int64, (List.range 8).map (fun i => .int i)⟩,
    ⟨"target", .int64, (List.range 8).map (fun i => .int (i % 2))⟩]⟩

def xCol3 : Column := ⟨"x", .int64, [.int 1, .int 2, .int 3]⟩

/-- A binary target column in which class `1` has a single member. -/
def yCol3 : Column := ⟨"target", .int64, [.int 0, .int 0, .int 1]⟩

/-- Three rows, two distinct target classes, one of them with one member. -/
def df3 : DataFrame := ⟨[xCol3, yCol3]⟩

/-- Three rows with a constant (single-class) target. -/
def dfOneClass : DataFrame := ⟨[xCol3, ⟨"target", .int64, [.int 0, .int 0, .int 0]⟩]⟩

/-- A table with only object-dtype (categorical) columns. -/
def dfAllCat : DataFrame :=
  ⟨[⟨"a", .obj, [.str "x", .str "y"]⟩, ⟨"b", .obj, [.str "u", .str "v"]⟩]⟩

def mixCatCol : Column := ⟨"cat", .obj, [.str "a", .str "b", .str "a"]⟩

def mixNumCol : Column := ⟨"num", .int64, [.int 1, .int 2, .int 3]⟩

/-- One categorical and one numeric column. -/
def dfMix : DataFrame := ⟨[mixCatCol, mixNumCol]⟩

def catColW : Column := ⟨"sex", .obj, [.str "b", .str "a", .str "b"]⟩

/-- A single object column whose first appearing value is not the smallest. -/
def dfCat : DataFrame := ⟨[catColW]⟩

def naColW : Column := ⟨"sex", .obj, [.str "b", .na, .str "a"]⟩

/-- A single object column containing a missing value. -/
def dfNa : DataFrame := ⟨[naColW]⟩

/-- A one-column, two-row table for the CSV writer. -/
def dfW6 : DataFrame := ⟨[⟨"x", .int64, [.int 1, .int 2]⟩]⟩

/-- A labels-only bundle with three test labels. -/
def pd0 : ProcessedData := ⟨[], [.int 0, .int 1, .int 1]⟩

def pred0 : List Val := [.int 0, .int 1, .int 0]

def pred1 : List Val := [.int 0]

/-! ## Helper lemmas -/

theorem mkdirParent_readFile (path : String) (fs : FSState) (p : String) :
    (mkdirParent path fs).readFile p = fs.readFile p := by
  unfold mkdirParent
  split <;> rfl

theorem mkdirParent_no_dir (path : String) (fs : FSState) (h : dirname path = "") :
    mkdirParent path fs = fs := by
  unfold mkdirParent
  simp [h]

theorem mkdirParent_dirs_mem (path : String) (fs : FSState) (h : dirname path ≠ "") :
    dirname path ∈ (mkdirParent path fs).dirs := by
  unfold mkdirParent
  simp [h, FSState.makedirs]

theorem readFile_writeFile_self (fs : FSState) (p : String) (content : List Nat) :
    (fs.writeFile p content).readFile p = some content := by
  simp [FSState.readFile, FSState.writeFile, List.find?_cons]

/-! ## Theorems for the claims -/

/-- Claim C6: for every table and every output path with no directory
component, `write_to_csv` performs no directory-creation operation (the
`makedirs` trace and directory set are unchanged, so in particular it is
never called on the empty string), writes the CSV at exactly that path with
no extension appended, and returns the path unchanged. -/
theorem write_to_csv_no_dir_spec (df : DataFrame) (path : String) (fs : FSState)
    (h : dirname path = "") :
    (write_to_csv df path fs).1 = path ∧
    (write_to_csv df path fs).2.mkdirCalls = fs.mkdirCalls ∧
    (write_to_csv df path fs).2.dirs = fs.dirs ∧
    (write_to_csv df path fs).2.readFile path = some (csvBytes df) := by
  unfold write_to_csv
  rw [mkdirParent_no_dir path fs h]
  exact ⟨rfl, rfl, rfl, readFile_writeFile_self fs path (csvBytes df)⟩

/-- Witness for C6 at a concrete table and extensionless path. -/
theorem write_to_csv_no_dir_spec_witness :
    (write_to_csv dfW6 "file.csv" fs0).1 = "file.csv" ∧
    (write_to_csv dfW6 "file.csv" fs0).2.mkdirCalls = fs0.mkdirCalls ∧
    (write_to_csv dfW6 "file.csv" fs0).2.dirs = fs0.dirs ∧
    (write_to_csv dfW6 "file.csv" fs0).2.readFile "file.csv" = some (csvBytes dfW6) :=
  write_to_csv_no_dir_spec dfW6 "file.csv" fs0 (by decide)

/-- Claim C7 (amended): `copy_file` raises a not-found error whenever no
file exists at `src_path` (also when the two paths coincide, since the
same-file check swallows the stat error for a missing file); it raises a
same-file error when `out_path` refers to the same existing file as
`src_path`; and on an existing source at a different path it creates the
parent directory of `out_path` when nonempty, leaves `out_path`
byte-identical to the source, and returns `out_path`. -/
theorem copy_file_spec (src_path out_path : String) (fs : FSState) :
    (fs.readFile src_path = none →
      copy_file src_path out_path fs = .error .fileNotFoundError) ∧
    (src_path = out_path → ∀ content, fs.readFile src_path = some content →
      copy_file src_path out_path fs = .error .sameFileError) ∧
    (src_path ≠ out_path → ∀ content, fs.readFile src_path = some content →
      ∃ fs', copy_file src_path out_path fs = .ok (out_path, fs') ∧
        fs'.readFile out_path = some content ∧
        (dirname out_path ≠ "" → dirname out_path ∈ fs'.dirs)) := by
  refine ⟨fun hnone => ?_, fun he content hsome => ?_, fun hne content hsome => ?_⟩
  · have hcond : ¬ (src_path = out_path ∧
        ((mkdirParent out_path fs).readFile src_path).isSome = true) := by
      rintro ⟨-, hs⟩
      rw [mkdirParent_readFile, hnone] at hs
      simp at hs
    unfold copy_file
    rw [if_neg hcond, mkdirParent_readFile, hnone]
  · unfold copy_file
    rw [if_pos ⟨he, by rw [mkdirParent_readFile, hsome]; rfl⟩]
  · unfold copy_file
    rw [if_neg (fun hc => hne hc.1), mkdirParent_readFile, hsome]
    refine ⟨_, rfl, readFile_writeFile_self _ _ _, fun hd => ?_⟩
    exact mkdirParent_dirs_mem out_path fs hd

/-- Counterexample for C7 as stated: the source file exists, yet copying it
onto itself raises a same-file error instead of returning the path. -/
theorem copy_file_same_path_cex :
    fsA.readFile "a.txt" = some [104, 105] ∧
    copy_file "a.txt" "a.txt" fsA = .error .sameFileError := by
  exact ⟨rfl, rfl⟩

/-- Witness for the amended C7 on a distinct, existing source. -/
theorem copy_file_spec_witness :
    ∃ fs', copy_file "a.txt" "dir/b.txt" fsA = .ok ("dir/b.txt", fs') ∧
      fs'.readFile "dir/b.txt" = some [104, 105] ∧
      (dirname "dir/b.txt" ≠ "" → dirname "dir/b.txt" ∈ fs'.dirs) :=
  (copy_file_spec "a.txt" "dir/b.txt" fsA).2.2 (by decide) [104, 105] (by decide)

/-- Claim C4: on a table with no numeric columns,
`make_correlation_heatmap_png` still returns `out_path` and writes a valid
PNG (correct signature bytes) containing the placeholder message, after
creating the parent directory of `out_path` when it has one. -/
theorem make_correlation_heatmap_png_no_numeric (encoded_df : DataFrame)
    (out_path : String) (fs : FSState)
    (h : ∀ c ∈ encoded_df.cols, c.dtype = .obj) :
    (make_correlation_heatmap_png encoded_df out_path fs).1 = out_path ∧
    (make_correlation_heatmap_png encoded_df out_path fs).2.readFile out_path =
      some (pngFileBytes noNumericMsg) ∧
    (pngFileBytes noNumericMsg).take 8 = pngSignature ∧
    (dirname out_path ≠ "" →
      dirname out_path ∈ (make_correlation_heatmap_png encoded_df out_path fs).2.dirs) := by
  have hfil : encoded_df.cols.filter (fun c => c.dtype.isNumeric) = [] := by
    rw [List.filter_eq_nil_iff]
    intro c hc
    rw [h c hc]
    decide
  unfold make_correlation_heatmap_png
  rw [hfil]
  have hcond : ([] : List Column).length = 0 ∨ encoded_df.nRows = 0 := Or.inl rfl
  rw [if_pos hcond]
  refine ⟨rfl, readFile_writeFile_self _ _ _, by decide, fun hd => ?_⟩
  exact mkdirParent_dirs_mem out_path fs hd

/-- Witness for C4: an all-categorical two-column table, written below a
fresh directory. -/
theorem make_correlation_heatmap_png_no_numeric_witness :
    (make_correlation_heatmap_png dfAllCat "plots/corr.png" fs0).1 = "plots/corr.png" ∧
    (make_correlation_heatmap_png dfAllCat "plots/corr.png" fs0).2.readFile "plots/corr.png" =
      some (pngFileBytes noNumericMsg) ∧
    (pngFileBytes noNumericMsg).take 8 = pngSignature ∧
    (dirname "plots/corr.png" ≠ "" →
      dirname "plots/corr.png" ∈ (make_correlation_heatmap_png dfAllCat "plots/corr.png" fs0).2.dirs) :=
  make_correlation_heatmap_png_no_numeric dfAllCat "plots/corr.png" fs0 (by decide)

theorem getCol_mem {df : DataFrame} {tc : String} {c : Column}
    (h : df.getCol tc = some c) : c ∈ df.cols :=
  List.mem_of_find?_eq_some h

theorem getCol_none_iff (df : DataFrame) (tc : String) :
    df.getCol tc = none ↔ tc ∉ df.colNames := by
  rw [DataFrame.getCol, List.find?_eq_none, DataFrame.colNames]
  simp

theorem make_processed_data_some {df : DataFrame} {tc : String} {ycol : Column}
    (hy : df.getCol tc = some ycol) :
    make_processed_data df tc = processWithTarget df tc ycol := by
  unfold make_processed_data
  rw [hy]

theorem processWithTarget_ne_keyError (df : DataFrame) (tc : String) (ycol : Column) :
    processWithTarget df tc ycol ≠ .error .keyError := by
  unfold processWithTarget
  intro h
  repeat' split at h
  all_goals simp at h

theorem processWithTarget_ok {df : DataFrame} {tc : String} {ycol : Column}
    {s : SplitShape} (h : processWithTarget df tc ycol = .ok s) :
    s = ⟨ycol.values.length - sklearnTestCount ycol.values.length,
         sklearnTestCount ycol.values.length⟩ := by
  unfold processWithTarget at h
  repeat' split at h
  all_goals simp only [Except.ok.injEq, reduceCtorEq] at h
  exact h.symm

/-- Claim C1 (amended): whenever `make_processed_data` succeeds on a
well-formed N-row table, the bundle has `⌊0.7·N⌋ = N - ⌈0.3·N⌉` training
rows and `⌈0.3·N⌉` test rows (not `round(0.7·N)`), and the two counts sum
to N. -/
theorem make_processed_data_split_sizes (df : DataFrame) (tc : String)
    (s : SplitShape) (hwf : df.WF) (hok : make_processed_data df tc = .ok s) :
    s.n_train = 7 * df.nRows / 10 ∧
    s.n_test = df.nRows - 7 * df.nRows / 10 ∧
    s.n_train + s.n_test = df.nRows := by
  unfold make_processed_data at hok
  cases hy : df.getCol tc with
  | none => rw [hy] at hok; simp at hok
  | some ycol =>
    rw [hy] at hok
    have hlen : ycol.values.length = df.nRows := hwf ycol (getCol_mem hy)
    rw [processWithTarget_ok hok]
    refine ⟨?_, ?_, ?_⟩
    · show ycol.values.length - sklearnTestCount ycol.values.length = 7 * df.nRows / 10
      rw [← hlen]
      simp only [sklearnTestCount]
      omega
    · show sklearnTestCount ycol.values.length = df.nRows - 7 * df.nRows / 10
      rw [← hlen]
      simp only [sklearnTestCount]
      omega
    · show ycol.values.length - sklearnTestCount ycol.values.length +
        sklearnTestCount ycol.values.length = df.nRows
      rw [← hlen]
      simp only [sklearnTestCount]
      omega

/-- Counterexample for C1 as stated: on the 8-row balanced binary table the
bundle has 5 training rows, but `round(0.7·8) = round(5.6) = 6`. -/
theorem make_processed_data_round_claim_cex :
    df8.WF ∧ df8.nRows = 8 ∧
    make_processed_data df8 "target" = .ok ⟨5, 3⟩ ∧
    (5 : ℤ) ≠ round ((7 / 10 : ℚ) * 8) := by
  refine ⟨by decide, by decide, by rfl, ?_⟩
  have h6 : round ((7 / 10 : ℚ) * 8) = 6 := by
    norm_num [round_eq]
  rw [h6]
  decide

/-- Witness for the amended C1 at N = 40: 28 training and 12 test rows. -/
theorem make_processed_data_split_sizes_witness :
    df40.WF ∧ make_processed_data df40 "target" = .ok ⟨28, 12⟩ ∧
    28 = 7 * df40.nRows / 10 ∧ 12 = df40.nRows - 7 * df40.nRows / 10 ∧
    28 + 12 = df40.nRows :=
  ⟨by decide, by rfl,
    (make_processed_data_split_sizes df40 "target" ⟨28, 12⟩ (by decide) (by rfl)).1,
    (make_processed_data_split_sizes df40 "target" ⟨28, 12⟩ (by decide) (by rfl)).2.1,
    (make_processed_data_split_sizes df40 "target" ⟨28, 12⟩ (by decide) (by rfl)).2.2⟩

/-- Claim C3 (amended): `make_processed_data` raises a key error exactly
when the target column is missing; given the column, fewer than 2 distinct
non-missing target values always yield a value error; and every error it
raises is a key error or a value error (no bundle is returned, the function
is pure).  A value error can additionally arise from the downstream scaling
and stratified-split library stages. -/
theorem make_processed_data_error_spec (df : DataFrame) (tc : String) :
    (make_processed_data df tc = .error .keyError ↔ tc ∉ df.colNames) ∧
    (∀ ycol, df.getCol tc = some ycol → (nonNaDistinct ycol.values).length < 2 →
      make_processed_data df tc = .error .valueError) ∧
    (∀ e, make_processed_data df tc = .error e → e = .keyError ∨ e = .valueError) := by
  refine ⟨?_, ?_, ?_⟩
  · rw [← getCol_none_iff df tc]
    cases hy : df.getCol tc with
    | none =>
      unfold make_processed_data
      rw [hy]
      simp
    | some ycol =>
      rw [make_processed_data_some hy]
      simp only [reduceCtorEq, iff_false]
      exact processWithTarget_ne_keyError df tc ycol
  · intro ycol hy hlt
    rw [make_processed_data_some hy]
    unfold processWithTarget
    rw [if_pos hlt]
  · intro e he
    cases hy : df.getCol tc with
    | none =>
      unfold make_processed_data at he
      rw [hy] at he
      simp only [Except.error.injEq] at he
      exact Or.inl he.symm
    | some ycol =>
      rw [make_processed_data_some hy] at he
      unfold processWithTarget at he
      repeat' split at he
      all_goals simp only [Except.error.injEq, reduceCtorEq] at he
      all_goals exact Or.inr he.symm

/-- Counterexample for C3 as stated: the target of `df3` has two distinct
non-missing values, yet `make_processed_data` raises a value error (the
stratified split rejects a class with a single member). -/
theorem make_processed_data_two_classes_cex :
    df3.getCol "target" = some yCol3 ∧
    ¬ (nonNaDistinct yCol3.values).length < 2 ∧
    make_processed_data df3 "target" = .error .valueError := by
  exact ⟨by rfl, by decide, by rfl⟩

/-- Witness for the amended C3: a missing target column raises a key error;
a single-class target raises a value error. -/
theorem make_processed_data_error_spec_witness :
    make_processed_data df3 "absent" = .error .keyError ∧
    make_processed_data dfOneClass "target" = .error .valueError :=
  ⟨(make_processed_data_error_spec df3 "absent").1.mpr (by decide),
   (make_processed_data_error_spec dfOneClass "target").2.1
     ⟨"target", .int64, [.int 0, .int 0, .int 0]⟩ (by rfl) (by decide)⟩

theorem encodeColumn_name (c : Column) : (encodeColumn c).name = c.name := by
  unfold encodeColumn
  split <;> rfl

theorem encodeColumn_length (c : Column) :
    (encodeColumn c).values.length = c.values.length := by
  unfold encodeColumn
  split <;> simp

theorem encodeColumn_not_obj {c : Column} (h : ¬ c.dtype = .obj) :
    encodeColumn c = c := by
  unfold encodeColumn
  rw [if_neg h]

theorem catCode_isInt (cs : List String) (v : Val) : (catCode cs v).isInt = true := by
  unfold catCode
  cases v <;> rfl

theorem encodeColumn_obj {c : Column} (h : c.dtype = .obj) :
    (encodeColumn c).dtype = .int64 ∧
    (encodeColumn c).values = c.values.map (catCode (categoriesOf c.values)) := by
  unfold encodeColumn
  rw [if_pos h]
  exact ⟨rfl, rfl⟩

theorem encode_cols_get? (df : DataFrame) (i : Nat) :
    (encode_categoricals df).cols.get? i = (df.cols.get? i).map encodeColumn := by
  unfold encode_categoricals
  exact List.get?_map encodeColumn df.cols i

/-- Claim C2: `encode_categoricals` preserves the column list (names, order,
count) and every column's row count; every non-object (numeric) column is
returned unchanged, and every object column becomes an `int64` column all of
whose values are integers (the category codes). -/
theorem encode_categoricals_schema (df : DataFrame) :
    (encode_categoricals df).colNames = df.colNames ∧
    (encode_categoricals df).nRows = df.nRows ∧
    (encode_categoricals df).cols.length = df.cols.length ∧
    ∀ i c, df.cols.get? i = some c →
      ∃ c', (encode_categoricals df).cols.get? i = some c' ∧
        c'.name = c.name ∧ c'.values.length = c.values.length ∧
        (c.dtype ≠ .obj → c' = c) ∧
        (c.dtype = .obj → c'.dtype = .int64 ∧ ∀ v ∈ c'.values, v.isInt = true) := by
  refine ⟨?_, ?_, ?_, ?_⟩
  · unfold DataFrame.colNames encode_categoricals
    rw [List.map_map]
    congr 1
    funext c
    exact encodeColumn_name c
  · cases hcols : df.cols <;>
      simp [encode_categoricals, DataFrame.nRows, hcols, encodeColumn_length]
  · unfold encode_categoricals
    simp
  · intro i c hc
    refine ⟨encodeColumn c, ?_, encodeColumn_name c, encodeColumn_length c, ?_, ?_⟩
    · rw [encode_cols_get?, hc]
      rfl
    · exact fun h => encodeColumn_not_obj h
    · intro h
      obtain ⟨hd, hv⟩ := encodeColumn_obj h
      refine ⟨hd, fun v hv2 => ?_⟩
      rw [hv] at hv2
      obtain ⟨w, _, rfl⟩ := List.mem_map.mp hv2
      exact catCode_isInt _ w

/-- Witness for C2 on a mixed table: the object column is recoded to
integers, the numeric column passes through unchanged. -/
theorem encode_categoricals_schema_witness :
    (encode_categoricals dfMix).colNames = dfMix.colNames ∧
    (∃ c', (encode_categoricals dfMix).cols.get? 0 = some c' ∧
      c'.name = mixCatCol.name ∧ c'.values.length = mixCatCol.values.length ∧
      (mixCatCol.dtype ≠ .obj → c' = mixCatCol) ∧
      (mixCatCol.dtype = .obj → c'.dtype = .int64 ∧ ∀ v ∈ c'.values, v.isInt = true)) ∧
    (∃ c', (encode_categoricals dfMix).cols.get? 1 = some c' ∧
      c'.name = mixNumCol.name ∧ c'.values.length = mixNumCol.values.length ∧
      (mixNumCol.dtype ≠ .obj → c' = mixNumCol) ∧
      (mixNumCol.dtype = .obj → c'.dtype = .int64 ∧ ∀ v ∈ c'.values, v.isInt = true)) :=
  ⟨(encode_categoricals_schema dfMix).1,
   (encode_categoricals_schema dfMix).2.2.2 0 mixCatCol (by rfl),
   (encode_categoricals_schema dfMix).2.2.2 1 mixNumCol (by rfl)⟩

theorem mem_strsOf {vs : List Val} {t : String} : t ∈ strsOf vs ↔ Val.str t ∈ vs := by
  unfold strsOf
  rw [List.mem_filterMap]
  constructor
  · rintro ⟨v, hv, he⟩
    cases v with
    | str u =>
      simp only [Option.some.injEq] at he
      subst he
      exact hv
    | int n => simp at he
    | na => simp at he
  · intro hv
    exact ⟨Val.str t, hv, rfl⟩

theorem categoriesOf_sorted_le (vs : List Val) :
    List.Sorted (· ≤ ·) (categoriesOf vs) :=
  List.sorted_insertionSort _ _

theorem categoriesOf_nodup (vs : List Val) : (categoriesOf vs).Nodup :=
  (List.perm_insertionSort _ _).nodup_iff.mpr (List.nodup_dedup _)

theorem categoriesOf_mem (vs : List Val) (t : String) :
    t ∈ categoriesOf vs ↔ Val.str t ∈ vs := by
  unfold categoriesOf
  rw [(List.perm_insertionSort _ _).mem_iff, List.mem_dedup]
  exact mem_strsOf

theorem categoriesOf_sorted_lt (vs : List Val) :
    List.Sorted (· < ·) (categoriesOf vs) := by
  refine List.Pairwise.imp ?_
    (List.Pairwise.and (categoriesOf_sorted_le vs) (categoriesOf_nodup vs))
  rintro a b ⟨hle, hne⟩
  exact lt_of_le_of_ne hle hne

theorem categoriesOf_ext {vs ws : List Val}
    (h : ∀ t : String, Val.str t ∈ vs ↔ Val.str t ∈ ws) :
    categoriesOf vs = categoriesOf ws := by
  apply List.eq_of_perm_of_sorted ?_ (categoriesOf_sorted_le vs)
    (categoriesOf_sorted_le ws)
  refine ((categoriesOf_nodup vs).subperm fun t ht => ?_).antisymm
    ((categoriesOf_nodup ws).subperm fun t ht => ?_)
  · exact (categoriesOf_mem ws t).mpr ((h t).mp ((categoriesOf_mem vs t).mp ht))
  · exact (categoriesOf_mem vs t).mpr ((h t).mpr ((categoriesOf_mem ws t).mp ht))

theorem nodup_get?_indexOf {l : List String} (hnd : l.Nodup) {m : Nat} {s : String}
    (h : l.get? m = some s) : l.indexOf s = m := by
  induction l generalizing m with
  | nil => simp at h
  | cons a l ih =>
    cases m with
    | zero =>
      simp only [List.get?_cons_zero, Option.some.injEq] at h
      subst h
      exact List.indexOf_cons_self a l
    | succ m =>
      simp only [List.get?_cons_succ] at h
      have hmem : s ∈ l := List.get?_mem h
      have hne : a ≠ s := fun he => (List.nodup_cons.mp hnd).1 (he ▸ hmem)
      rw [List.indexOf_cons_ne _ hne, ih (List.nodup_cons.mp hnd).2 h]

/-- Claim C9: in every object-dtype column, a non-missing value at row `j`
is encoded as the integer `k` exactly when it is the `(k+1)`-th smallest
element of the column's distinct non-missing values (the sorted, duplicate-
free category list); the category list is therefore a function of the
column's value set alone, independent of row order. -/
theorem encode_categoricals_sorted_codes (df : DataFrame) (i : Nat) (c : Column)
    (j : Nat) (s : String) (hc : df.cols.get? i = some c) (hobj : c.dtype = .obj)
    (hj : c.values.get? j = some (.str s)) :
    ∃ c', (encode_categoricals df).cols.get? i = some c' ∧
      (∀ k : ℤ, c'.values.get? j = some (.int k) ↔
        0 ≤ k ∧ (categoriesOf c.values).get? k.toNat = some s) ∧
      List.Sorted (· < ·) (categoriesOf c.values) ∧
      (∀ t, t ∈ categoriesOf c.values ↔ Val.str t ∈ c.values) ∧
      (∀ vs : List Val, (∀ t : String, Val.str t ∈ vs ↔ Val.str t ∈ c.values) →
        categoriesOf vs = categoriesOf c.values) := by
  obtain ⟨hd, hv⟩ := encodeColumn_obj hobj
  refine ⟨encodeColumn c, by rw [encode_cols_get?, hc]; rfl, ?_,
    categoriesOf_sorted_lt _, categoriesOf_mem _,
    fun vs hvs => categoriesOf_ext hvs⟩
  have hsmem : s ∈ categoriesOf c.values :=
    (categoriesOf_mem _ s).mpr (List.get?_mem hj)
  have hval : (encodeColumn c).values.get? j =
      some (.int ((categoriesOf c.values).indexOf s : Nat)) := by
    rw [hv, List.get?_map, hj]
    rfl
  intro k
  constructor
  · intro hk
    rw [hval] at hk
    simp only [Option.some.injEq, Val.int.injEq] at hk
    subst hk
    refine ⟨Int.natCast_nonneg _, ?_⟩
    rw [Int.toNat_natCast]
    exact List.indexOf_get? hsmem
  · rintro ⟨hk0, hkget⟩
    have hidx : (categoriesOf c.values).indexOf s = k.toNat :=
      nodup_get?_indexOf (categoriesOf_nodup _) hkget
    rw [hval, hidx, Int.toNat_of_nonneg hk0]

/-- Witness for C9: in a column `["b", "a", "b"]` the first row's value `b`
is coded by its rank in the sorted category list `["a", "b"]`. -/
theorem encode_categoricals_sorted_codes_witness :
    ∃ c', (encode_categoricals dfCat).cols.get? 0 = some c' ∧
      (∀ k : ℤ, c'.values.get? 0 = some (.int k) ↔
        0 ≤ k ∧ (categoriesOf catColW.values).get? k.toNat = some "b") ∧
      List.Sorted (· < ·) (categoriesOf catColW.values) ∧
      (∀ t, t ∈ categoriesOf catColW.values ↔ Val.str t ∈ catColW.values) ∧
      (∀ vs : List Val, (∀ t : String, Val.str t ∈ vs ↔ Val.str t ∈ catColW.values) →
        categoriesOf vs = categoriesOf catColW.values) :=
  encode_categoricals_sorted_codes dfCat 0 catColW 0 "b" (by rfl) (by rfl) (by rfl)

/-- Claim C10: on an object-dtype column containing missing values,
`encode_categoricals` still succeeds; every missing value is encoded as the
sentinel `-1`, every non-missing value gets a code `≥ 0` (so `-1` is no
category's code), and hence every code is `≥ -1`. -/
theorem encode_categoricals_na_codes (df : DataFrame) (i : Nat) (c : Column)
    (hc : df.cols.get? i = some c) (hobj : c.dtype = .obj)
    (hna : ∃ j, c.values.get? j = some .na) :
    ∃ c', (encode_categoricals df).cols.get? i = some c' ∧
      (∀ j, c.values.get? j = some .na → c'.values.get? j = some (.int (-1))) ∧
      (∀ j k, c'.values.get? j = some (.int k) → -1 ≤ k) ∧
      (∀ j s, c.values.get? j = some (.str s) →
        ∃ k : ℤ, c'.values.get? j = some (.int k) ∧ 0 ≤ k) := by
  obtain ⟨hd, hv⟩ := encodeColumn_obj hobj
  refine ⟨encodeColumn c, by rw [encode_cols_get?, hc]; rfl, ?_, ?_, ?_⟩
  · intro j hj
    rw [hv, List.get?_map, hj]
    rfl
  · intro j k hk
    rw [hv, List.get?_map] at hk
    cases hw : c.values.get? j with
    | none => rw [hw] at hk; simp at hk
    | some w =>
      rw [hw] at hk
      simp only [Option.map_some', Option.some.injEq] at hk
      cases w <;> simp only [catCode, Val.int.injEq] at hk <;> omega
  · intro j s hj
    refine ⟨((categoriesOf c.values).indexOf s : Nat), ?_, Int.natCast_nonneg _⟩
    rw [hv, List.get?_map, hj]
    rfl

/-- Witness for C10 on the column `["b", missing, "a"]`. -/
theorem encode_categoricals_na_codes_witness :
    ∃ c', (encode_categoricals dfNa).cols.get? 0 = some c' ∧
      (∀ j, naColW.values.get? j = some .na → c'.values.get? j = some (.int (-1))) ∧
      (∀ j k, c'.values.get? j = some (.int k) → -1 ≤ k) ∧
      (∀ j s, naColW.values.get? j = some (.str s) →
        ∃ k : ℤ, c'.values.get? j = some (.int k) ∧ 0 ≤ k) :=
  encode_categoricals_na_codes dfNa 0 naColW (by rfl) (by rfl) ⟨1, by rfl⟩

theorem countMatches_cons (a b : Val) (ys ps : List Val) :
    countMatches (a :: ys) (b :: ps) =
      (if a = b then 1 else 0) + countMatches ys ps := by
  simp only [countMatches, List.zip_cons_cons, List.filter_cons]
  by_cases hab : a = b <;> simp [hab, Nat.add_comm]

theorem countIdx_cons (a b : Val) (ys ps : List Val) :
    ((List.range (ys.length + 1)).filter
        (fun idx => (a :: ys).get? idx = (b :: ps).get? idx)).length =
      (if a = b then 1 else 0) +
      ((List.range ys.length).filter (fun idx => ys.get? idx = ps.get? idx)).length := by
  rw [List.range_succ_eq_map, List.filter_cons]
  by_cases hab : a = b <;>
    simp [hab, List.filter_map, Function.comp_def, List.get?_cons_succ, Nat.add_comm]

theorem countMatches_eq_countIdx (ys : List Val) :
    ∀ ps : List Val, ps.length = ys.length →
      countMatches ys ps =
        ((List.range ys.length).filter
          (fun idx => ys.get? idx = ps.get? idx)).length := by
  induction ys with
  | nil =>
    intro ps h
    cases ps with
    | nil => rfl
    | cons b ps => simp at h
  | cons a ys ih =>
    intro ps h
    cases ps with
    | nil => simp at h
    | cons b ps =>
      simp only [List.length_cons] at h
      have h' : ps.length = ys.length := by omega
      rw [countMatches_cons, List.length_cons, countIdx_cons, ih ps h']

theorem countMatches_le (ys ps : List Val) : countMatches ys ps ≤ ys.length :=
  calc countMatches ys ps ≤ (ys.zip ps).length := List.length_filter_le _ _
  _ ≤ ys.length := by rw [List.length_zip]; exact Nat.min_le_left _ _

/-- Claim C5: on integer class labels (the labels this pipeline produces),
`compute_accuracy` with a same-length nonempty prediction vector returns the
fraction of positions at which the test label equals the prediction — a
value in `[0, 1]` — and raises a value error on any length mismatch. -/
theorem compute_accuracy_spec (p : ProcessedData) (y_pred : List Val) :
    (y_pred.length ≠ p.y_test.length →
      compute_accuracy p y_pred = .error .valueError) ∧
    ((∀ v ∈ p.y_test, v.isInt = true) → (∀ v ∈ y_pred, v.isInt = true) →
      y_pred.length = p.y_test.length → 0 < p.y_test.length →
      ∃ q : ℚ, compute_accuracy p y_pred = .ok q ∧
        q * (p.y_test.length : ℚ) = (countMatches p.y_test y_pred : ℚ) ∧
        countMatches p.y_test y_pred =
          ((List.range p.y_test.length).filter
            (fun idx => p.y_test.get? idx = y_pred.get? idx)).length ∧
        0 ≤ q ∧ q ≤ 1) := by
  refine ⟨fun hne => ?_, fun hti hpi hlen hpos => ?_⟩
  · unfold compute_accuracy
    rw [if_pos hne]
  · have hn : (p.y_test.length : ℚ) ≠ 0 := Nat.cast_ne_zero.mpr (by omega)
    refine ⟨(countMatches p.y_test y_pred : ℚ) / (p.y_test.length : ℚ),
      ?_, div_mul_cancel₀ _ hn, countMatches_eq_countIdx p.y_test y_pred hlen,
      by positivity, ?_⟩
    · unfold compute_accuracy
      rw [if_neg (fun hc => hc hlen)]
    · rw [div_le_one (by exact_mod_cast hpos)]
      exact_mod_cast countMatches_le p.y_test y_pred

/-- Witness for C5: a mismatched prediction raises; a 3-label bundle with
two matches yields accuracy 2/3. -/
theorem compute_accuracy_spec_witness :
    compute_accuracy pd0 pred1 = .error .valueError ∧
    (∃ q : ℚ, compute_accuracy pd0 pred0 = .ok q ∧
      q * (pd0.y_test.length : ℚ) = (countMatches pd0.y_test pred0 : ℚ) ∧
      countMatches pd0.y_test pred0 =
        ((List.range pd0.y_test.length).filter
          (fun idx => pd0.y_test.get? idx = pred0.get? idx)).length ∧
      0 ≤ q ∧ q ≤ 1) :=
  ⟨(compute_accuracy_spec pd0 pred1).1 (by decide),
   (compute_accuracy_spec pd0 pred0).2 (by decide) (by decide) (by rfl) (by decide)⟩

/-- Claim C8: on a same-length prediction vector, `make_evaluation_df`
returns a table whose columns are exactly `truth` and `estimate` in that
order, whose row count is the test split size, and whose two columns are
positionally the test labels and the predictions. -/
theorem make_evaluation_df_spec (p : ProcessedData) (y_pred : List Val)
    (h : y_pred.length = p.y_test.length) :
    ∃ ed, make_evaluation_df p y_pred = .ok ed ∧
      ed.colNames = ["truth", "estimate"] ∧
      ed.nRows = p.y_test.length ∧
      (∀ c ∈ ed.cols, c.values.length = p.y_test.length) ∧
      ed.cols.map (fun c => c.values) = [p.y_test, y_pred] := by
  refine ⟨⟨[⟨"truth", inferDtype p.y_test, p.y_test⟩,
    ⟨"estimate", inferDtype y_pred, y_pred⟩]⟩, ?_, rfl, rfl, ?_, rfl⟩
  · unfold make_evaluation_df
    rw [if_neg (fun hc => hc h)]
  · intro c hc
    simp only [List.mem_cons, List.not_mem_nil, or_false] at hc
    rcases hc with rfl | rfl
    · rfl
    · exact h

/-- Witness for C8 at a 3-row bundle. -/
theorem make_evaluation_df_spec_witness :
    ∃ ed, make_evaluation_df pd0 pred0 = .ok ed ∧
      ed.colNames = ["truth", "estimate"] ∧
      ed.nRows = pd0.y_test.length ∧
      (∀ c ∈ ed.cols, c.values.length = pd0.y_test.length) ∧
      ed.cols.map (fun c => c.values) = [pd0.y_test, pred0] :=
  make_evaluation_df_spec pd0 pred0 (by rfl)

end Rixgit
